import Mathlib

set_option maxHeartbeats 1000000

/-
  Shallow embedding of the ikea-bistro-backend order-lifecycle engine.

  Sources embedded here:
    server/src/services/orderService.ts        (createOrder, confirmOrder, markOrderReady)
    server/src/services/paymentService.ts      (createPaymentForOrder, createStripePayment,
                                                createSwishPayment, handleStripeWebhook,
                                                handleSwishCallback)
    server/src/services/receiptService.ts      (sendTelegramReceipt)
    server/src/services/notificationService.ts (sendOrderReadyNotification)
    server/src/store/database.ts               (SQLite store: orders, payment_sessions,
                                                receipts, stores, user_contexts, favorites,
                                                order_category_stats)
    server/src/routes/orders.ts                (POST /api/orders status-code mapping)
    server/src/data/menu.ts                    (serverMenuItems, serverMenuById)

  Modelling notes:
    - The SQLite tables are modelled as lists keyed by their primary key; INSERT OR
      REPLACE is modelled as cons-plus-filter on that key.
    - External collaborators (Stripe, Swish, Telegram) are modelled by an `Env` record
      of booleans/strings describing the configuration and the upstream responses;
      each operation is a pure state transformer on the database paired with the
      events it emits towards the collaborators.
    - Timestamps (createdAt/updatedAt/sentAt) and store geo-coordinates are omitted:
      no modelled operation branches on them.
    - JS `number` values that the code validates to be integers are modelled as Int.
-/

namespace Bistro

/-- Character-list equality of a candidate prefix against a list
    (the semantics of JS String.startsWith, used by routes/orders.ts). -/
def listPrefixEq : List Char → List Char → Bool
  | [], _ => true
  | _ :: _, [] => false
  | a :: as, b :: bs => a == b && listPrefixEq as bs

/-- Does the pattern occur as a contiguous run of the list
    (the semantics of JS String.includes, used by routes/orders.ts). -/
def listOccurs (pat : List Char) : List Char → Bool
  | [] => listPrefixEq pat []
  | c :: rest => listPrefixEq pat (c :: rest) || listOccurs pat rest

/-- JS msg.startsWith(pat). -/
def strStarts (s pat : String) : Bool := listPrefixEq pat.toList s.toList

/-- JS msg.includes(pat). -/
def strContains (s pat : String) : Bool := listOccurs pat.toList s.toList

/-- types.ts PaymentMethod. -/
inductive PaymentMethod
  | card
  | swish
deriving DecidableEq, Repr

/-- types.ts OrderStatus — lifecycle pending → confirmed → ready. -/
inductive OrderStatus
  | pending
  | confirmed
  | ready
deriving DecidableEq, Repr

/-- types.ts PaymentSessionStatus. -/
inductive SessionStatus
  | created
  | processing
  | succeeded
  | failed
deriving DecidableEq, Repr

/-- data/menu.ts ServerMenuItem. -/
structure ServerMenuItem where
  id : String
  name : String
  price : Int
  categoryId : String
deriving DecidableEq, Repr

/-- data/menu.ts serverMenuItems — the server-side menu, source of truth for pricing. -/
def serverMenuItems : List ServerMenuItem :=
  [ { id := ("choklad_glass"), name := ("Mjukglass med chokladtomte"), price := 12, categoryId := ("nytt") },
    { id := ("hotdog_classic"), name := ("Kokt varmkorv"), price := 5, categoryId := ("varm_mat") },
    { id := ("veggie_dog"), name := ("Veggie hotdog"), price := 5, categoryId := ("varm_mat") },
    { id := ("grilled_sausage"), name := ("Grillad wienerkorv"), price := 12, categoryId := ("varm_mat") },
    { id := ("pizza"), name := ("Surdegspizza"), price := 12, categoryId := ("varm_mat") },
    { id := ("onion"), name := ("Rostad lok"), price := 2, categoryId := ("toppings") },
    { id := ("cabbage"), name := ("Picklad rodkal"), price := 3, categoryId := ("toppings") },
    { id := ("icecream_basic"), name := ("Mjukglass"), price := 7, categoryId := ("fika_glass") },
    { id := ("coffee"), name := ("Kaffe"), price := 9, categoryId := ("fika_glass") },
    { id := ("kanelbulle"), name := ("Kanelbulle"), price := 5, categoryId := ("fika_glass") },
    { id := ("fountain_drink"), name := ("Dryck i mugg"), price := 10, categoryId := ("kall_dryck") },
    { id := ("iskub_cola"), name := ("ISKUB Cola"), price := 19, categoryId := ("kall_dryck") },
    { id := ("iskub_orange"), name := ("ISKUB Apelsin"), price := 19, categoryId := ("kall_dryck") } ]

/-- data/menu.ts serverMenuById — lookup by item id. -/
def serverMenuById (id : String) : Option ServerMenuItem :=
  serverMenuItems.find? (fun m => m.id == id)

/-- types.ts OrderLine — snapshot of an item at order creation time. -/
structure OrderLine where
  menuItemId : String
  name : String
  quantity : Int
  priceAtOrder : Int
deriving DecidableEq, Repr

/-- types.ts Order. -/
structure Order where
  id : String
  orderNumber : Int
  lines : List OrderLine
  totalPrice : Int
  paymentMethod : PaymentMethod
  status : OrderStatus
  paymentSessionId : String
  receiptSent : Bool
  telegramUserId : String
  storeId : String
deriving DecidableEq, Repr

/-- types.ts PaymentSession. -/
structure PaymentSession where
  id : String
  orderId : String
  method : PaymentMethod
  amount : Int
  status : SessionStatus
  externalReference : String
deriving DecidableEq, Repr

/-- types.ts TelegramReceipt (sentAt timestamp omitted). -/
structure TelegramReceipt where
  orderId : String
  sent : Bool
deriving DecidableEq, Repr

/-- types.ts Store (geo-coordinates omitted; no verified operation reads them). -/
structure StoreRow where
  id : String
  name : String
  city : String
deriving DecidableEq, Repr

/-- database.ts UserContextRow (timestamps omitted). -/
structure UserContextRow where
  telegramUserId : String
  storeId : Option String
  notificationsEnabled : Bool
deriving DecidableEq, Repr

/-- The SQLite database of store/database.ts: one list per table,
    each keyed by the table's primary key. -/
structure DB where
  orders : List Order
  sessions : List PaymentSession
  receipts : List TelegramReceipt
  stores : List StoreRow
  userContexts : List UserContextRow
  favorites : List (String × String)
  stats : List ((String × String) × Int)
deriving DecidableEq, Repr

/-- A database with empty tables (fresh schema). -/
def emptyDB : DB :=
  { orders := [], sessions := [], receipts := [], stores := [],
    userContexts := [], favorites := [], stats := [] }

/-- database.ts getOrder — SELECT * FROM orders WHERE id = ?. -/
def getOrder (db : DB) (orderId : String) : Option Order :=
  db.orders.find? (fun o => o.id == orderId)

/-- database.ts saveOrder — INSERT OR REPLACE keyed by the order id. -/
def saveOrder (db : DB) (o : Order) : DB :=
  { db with orders := o :: db.orders.filter (fun x => x.id ≠ o.id) }

/-- database.ts updateOrder — read-modify-write: get, merge the updates, save,
    then re-read. `f` is the spread-merge of the concrete Partial update. -/
def updateOrder (db : DB) (orderId : String) (f : Order → Order) : DB × Option Order :=
  match getOrder db orderId with
  | none => (db, none)
  | some existing =>
    let merged := f existing
    let db1 := saveOrder db merged
    (db1, getOrder db1 orderId)

/-- MAX(order_number) over the orders table (none when the table is empty). -/
def maxOrderNumber : List Order → Option Int
  | [] => none
  | o :: rest =>
    match maxOrderNumber rest with
    | none => some o.orderNumber
    | some m => some (max o.orderNumber m)

/-- database.ts nextOrderNumber — (MAX(order_number) ?? 9) + 1, so a fresh store issues 10. -/
def nextOrderNumber (db : DB) : Int :=
  (maxOrderNumber db.orders).getD 9 + 1

/-- database.ts savePaymentSession — INSERT OR REPLACE keyed by session id. -/
def savePaymentSession (db : DB) (s : PaymentSession) : DB :=
  { db with sessions := s :: db.sessions.filter (fun x => x.id ≠ s.id) }

/-- database.ts getPaymentSession. -/
def getPaymentSession (db : DB) (sessionId : String) : Option PaymentSession :=
  db.sessions.find? (fun s => s.id == sessionId)

/-- database.ts getPaymentSessionByExternalRef —
    SELECT * FROM payment_sessions WHERE external_reference = ?. -/
def getPaymentSessionByExternalRef (db : DB) (ref : String) : Option PaymentSession :=
  db.sessions.find? (fun s => s.externalReference == ref)

/-- database.ts updatePaymentSession — read-modify-write like updateOrder. -/
def updatePaymentSession (db : DB) (sessionId : String) (f : PaymentSession → PaymentSession) :
    DB × Option PaymentSession :=
  match getPaymentSession db sessionId with
  | none => (db, none)
  | some existing =>
    let merged := f existing
    let db1 := savePaymentSession db merged
    (db1, getPaymentSession db1 sessionId)

/-- database.ts saveReceipt — INSERT OR REPLACE keyed by order id. -/
def saveReceipt (db : DB) (r : TelegramReceipt) : DB :=
  { db with receipts := r :: db.receipts.filter (fun x => x.orderId ≠ r.orderId) }

/-- database.ts getReceipt. -/
def getReceipt (db : DB) (orderId : String) : Option TelegramReceipt :=
  db.receipts.find? (fun r => r.orderId == orderId)

/-- database.ts getStoreById. -/
def getStoreById (db : DB) (storeId : String) : Option StoreRow :=
  db.stores.find? (fun s => s.id == storeId)

/-- database.ts getUserContext. -/
def getUserContext (db : DB) (telegramUserId : String) : Option UserContextRow :=
  db.userContexts.find? (fun u => u.telegramUserId == telegramUserId)

/-- database.ts toggleFavorite — delete the row and report false when present,
    insert the row and report true when absent. -/
def toggleFavorite (db : DB) (telegramUserId menuItemId : String) : DB × Bool :=
  if (telegramUserId, menuItemId) ∈ db.favorites then
    ({ db with favorites := db.favorites.filter (fun p => p ≠ (telegramUserId, menuItemId)) },
     false)
  else
    ({ db with favorites := db.favorites ++ [(telegramUserId, menuItemId)] }, true)

/-- favoriteService.ts toggleUserFavorite — thin wrapper over database.ts toggleFavorite. -/
def toggleUserFavorite (db : DB) (telegramUserId menuItemId : String) :
    DB × (String × Bool) :=
  let (db1, isFavorite) := toggleFavorite db telegramUserId menuItemId
  (db1, (menuItemId, isFavorite))

/-- The canonical ordered-by-value key for an unordered category pair
    (the [a, b].sort() of database.ts recordCategoryCoOccurrence). -/
def pairKey (a b : String) : String × String :=
  if a < b then (a, b) else (b, a)

/-- database.ts recordCategoryCoOccurrence — canonicalise the unordered pair by
    sorting the two ids, then UPSERT an incremented count. -/
def recordCategoryCoOccurrence (db : DB) (catA catB : String) : DB :=
  if catA = catB then db
  else
    match db.stats.find? (fun e => e.1 == pairKey catA catB) with
    | some _ =>
      { db with
          stats := db.stats.map
            (fun e => if e.1 == pairKey catA catB then (e.1, e.2 + 1) else e) }
    | none => { db with stats := db.stats ++ [(pairKey catA catB, 1)] }

/-- The process environment and the behaviour of the external collaborators
    (payment providers and the Telegram bot), fixed for a run. -/
structure Env where
  /-- STRIPE_SECRET_KEY is set. -/
  stripeKeySet : Bool
  /-- The Stripe checkout.sessions.create upstream call succeeds. -/
  stripeCreateOk : Bool
  /-- The Stripe Checkout Session id returned upstream (the external reference). -/
  stripeSessionId : String
  /-- checkoutSession.url returned upstream (empty models a null url). -/
  stripeCheckoutUrl : String
  /-- STRIPE_WEBHOOK_SECRET is set. -/
  stripeWebhookSecretSet : Bool
  /-- The inbound Stripe webhook signature verifies against the secret. -/
  stripeSignatureValid : Bool
  /-- SWISH_CERT_PATH is set. -/
  swishCertSet : Bool
  /-- SWISH_MERCHANT_NUMBER is set. -/
  swishMerchantSet : Bool
  /-- HTTP status returned by the Swish payment-request call. -/
  swishStatusCode : Int
  /-- Location header returned by the Swish payment-request call. -/
  swishLocation : String
  /-- The generated Swish payee payment reference (uuid, dashes stripped). -/
  swishReference : String
  /-- TELEGRAM_BOT_TOKEN is set. -/
  botToken : Bool
  /-- bot.sendMessage succeeds (does not throw). -/
  telegramSendOk : Bool
deriving DecidableEq, Repr

/-- Invocations of the notification collaborators emitted by the lifecycle engine.
    A receiptSend event records the exact order object handed to
    receiptService.sendTelegramReceipt together with the chat id; a pushSend event
    records the invocation of notificationService.sendOrderReadyNotification. -/
inductive Event
  | receiptSend (order : Order) (chatId : String)
  | pushSend (telegramUserId : String) (orderNumber : Int)
deriving DecidableEq, Repr

/-- paymentService.ts PaymentCreationResult. clientSecret is part of the interface
    but never assigned by either provider branch. -/
structure PaymentCreationResult where
  sessionId : String
  clientSecret : Option String
  checkoutUrl : Option String
  swishUrl : Option String
deriving DecidableEq, Repr

/-- The error message thrown when the Stripe branch fails for any reason,
    including a missing STRIPE_SECRET_KEY: the catch block in createStripePayment
    replaces the original error with this generic one. -/
def stripeFailMsg : String := "Stripe Checkout session creation failed"

/-- The error message thrown by createSwishPayment when SWISH_CERT_PATH or
    SWISH_MERCHANT_NUMBER is absent. -/
def swishUnconfiguredMsg : String :=
  "Swish is not configured. Set SWISH_CERT_PATH and SWISH_MERCHANT_NUMBER in .env. " ++
  "Real Swish integration requires a merchant TLS certificate (.p12) from your bank."

/-- location.split(sep).pop() || fallback of the Swish branch. -/
def lastSegment (s : String) : String :=
  ((s.splitOn ("/")).getLast?).getD ("")

/-- paymentService.ts createPaymentForOrder, inlining createStripePayment and
    createSwishPayment. Every throw in the source occurs before savePaymentSession,
    so all error outcomes leave the database untouched. -/
def createPaymentForOrder (env : Env) (sessionId orderId : String) (amount : Int)
    (method : PaymentMethod) (db : DB) : DB × Except String PaymentCreationResult :=
  match method with
  | .card =>
    if env.stripeKeySet && env.stripeCreateOk then
      let session : PaymentSession :=
        { id := sessionId, orderId := orderId, method := .card, amount := amount,
          status := .created, externalReference := env.stripeSessionId }
      (savePaymentSession db session,
       .ok { sessionId := sessionId, clientSecret := none,
             checkoutUrl := some env.stripeCheckoutUrl, swishUrl := none })
    else
      (db, .error stripeFailMsg)
  | .swish =>
    if !(env.swishCertSet && env.swishMerchantSet) then
      (db, .error swishUnconfiguredMsg)
    else if env.swishStatusCode ≠ 201 || env.swishLocation = ("") then
      (db, .error (("Swish API returned status ") ++ toString env.swishStatusCode ++
        (". Check certificate and merchant number configuration.")))
    else
      let requestId := lastSegment env.swishLocation
      let session : PaymentSession :=
        { id := sessionId, orderId := orderId, method := .swish, amount := amount,
          status := .created, externalReference := env.swishReference }
      (savePaymentSession db session,
       .ok { sessionId := sessionId, clientSecret := none, checkoutUrl := none,
             swishUrl := some (("swish://paymentrequest?token=") ++ requestId) })

/-- receiptService.ts — the attempt part of sendTelegramReceipt: with a bot token a
    send is attempted and the outcome recorded; a throw is caught and recorded as
    not sent; without a bot token the receipt is logged and recorded as not sent. -/
def attemptReceipt (env : Env) (db : DB) (order : Order) : DB × Bool :=
  if env.botToken then
    if env.telegramSendOk then
      (saveReceipt db { orderId := order.id, sent := true }, true)
    else
      (saveReceipt db { orderId := order.id, sent := false }, false)
  else
    (saveReceipt db { orderId := order.id, sent := false }, false)

/-- receiptService.ts sendTelegramReceipt — skip (reporting true) when the persisted
    receipt says already sent, otherwise attempt delivery. -/
def sendTelegramReceipt (env : Env) (db : DB) (order : Order) : DB × Bool :=
  match getReceipt db order.id with
  | some r => if r.sent then (db, true) else attemptReceipt env db order
  | none => attemptReceipt env db order

/-- types.ts CreateOrderRequest cart item: the caller also supplies a name and a
    price, both of which the server must ignore. -/
structure CartItem where
  menuItemId : String
  name : String
  quantity : Int
  price : Int
deriving DecidableEq, Repr

/-- types.ts CreateOrderRequest. -/
structure CreateOrderRequest where
  items : List CartItem
  paymentMethod : PaymentMethod
  telegramUserId : String
  storeId : String
deriving DecidableEq, Repr

/-- types.ts CreateOrderResponse. -/
structure CreateOrderResponse where
  orderId : String
  orderNumber : Int
  status : OrderStatus
  paymentSessionId : String
  amount : Int
  clientSecret : Option String
  checkoutUrl : Option String
  swishUrl : Option String
deriving DecidableEq, Repr

/-- orderService.ts createOrder lines construction: request.items.map with the
    per-item quantity and menu validations; the map throws at the first bad item. -/
def buildLines : List CartItem → Except String (List OrderLine)
  | [] => .ok []
  | it :: rest =>
    if it.quantity < 1 then .error ("Invalid quantity. Must be an integer >= 1")
    else
      match serverMenuById it.menuItemId with
      | none => .error (("Invalid menuItemId: ") ++ it.menuItemId)
      | some m =>
        match buildLines rest with
        | .error e => .error e
        | .ok ls =>
          .ok ({ menuItemId := m.id, name := m.name, quantity := it.quantity,
                 priceAtOrder := m.price } :: ls)

/-- The de-duplication performed by JS `new Set`, preserving first occurrences. -/
def dedupFirst : List String → List String
  | [] => []
  | a :: rest => a :: dedupFirst (rest.filter (fun x => x ≠ a))
termination_by l => l.length
decreasing_by
  simp only [List.length_cons]
  exact Nat.lt_succ_of_le (List.length_filter_le _ _)

/-- orderService.ts createOrder upsell bookkeeping: the distinct category ids of the
    requested items that resolve in the server menu (JS filters falsy categoryIds,
    modelled as dropping the empty string). -/
def catsOf (items : List CartItem) : List String :=
  dedupFirst (((items.filterMap (fun it => serverMenuById it.menuItemId)).map
    (fun m => m.categoryId)).filter (fun c => c ≠ ("")))

/-- The i < j double loop over the category list. -/
def allPairs : List String → List (String × String)
  | [] => []
  | a :: rest => rest.map (fun b => (a, b)) ++ allPairs rest

/-- Record one co-occurrence per category pair. -/
def recordPairs (db : DB) : List (String × String) → DB
  | [] => db
  | (a, b) :: rest => recordPairs (recordCategoryCoOccurrence db a b) rest

/-- orderService.ts createOrder. The uuids generated for the order and the payment
    session are passed in as `orderId` and `sessionId`. Returns the database after
    the call together with the response or the thrown error message; every thrown
    validation or provider error leaves the database exactly as it was. -/
def createOrder (env : Env) (orderId sessionId : String) (db : DB)
    (req : CreateOrderRequest) : DB × Except String CreateOrderResponse :=
  if req.items.isEmpty then
    (db, .error ("Order must contain at least one item"))
  else if req.telegramUserId = ("") then
    (db, .error ("telegramUserId is required"))
  else if req.storeId = ("") then
    (db, .error ("storeId is required for order creation"))
  else
    match getStoreById db req.storeId with
    | none => (db, .error (("Invalid storeId: ") ++ req.storeId))
    | some _ =>
      let orderNumber := nextOrderNumber db
      match buildLines req.items with
      | .error e => (db, .error e)
      | .ok lines =>
        let totalPrice := lines.foldl (fun s l => s + l.quantity * l.priceAtOrder) 0
        match createPaymentForOrder env sessionId orderId totalPrice req.paymentMethod db with
        | (_, .error e) => (db, .error e)
        | (db1, .ok payRes) =>
          let order : Order :=
            { id := orderId, orderNumber := orderNumber, lines := lines,
              totalPrice := totalPrice, paymentMethod := req.paymentMethod,
              status := .pending, paymentSessionId := payRes.sessionId,
              receiptSent := false, telegramUserId := req.telegramUserId,
              storeId := req.storeId }
          let db2 := saveOrder db1 order
          let db3 := recordPairs db2 (allPairs (catsOf req.items))
          (db3,
           .ok { orderId := orderId, orderNumber := orderNumber, status := .pending,
                 paymentSessionId := payRes.sessionId, amount := totalPrice,
                 clientSecret :=
                   match payRes.clientSecret with
                   | some u => if u = ("") then none else some u
                   | none => none,
                 checkoutUrl :=
                   match payRes.checkoutUrl with
                   | some u => if u = ("") then none else some u
                   | none => none,
                 swishUrl :=
                   match payRes.swishUrl with
                   | some u => if u = ("") then none else some u
                   | none => none })

/-- orderService.ts confirmOrder — unconditionally writes status confirmed, then
    invokes the receipt collaborator (recording receiptSent on success, swallowing
    failures), and returns the re-read order. The 30-second deferred markOrderReady
    is modelled as a separate later engine operation. -/
def confirmOrder (env : Env) (db : DB) (orderId : String) :
    DB × Option Order × List Event :=
  match updateOrder db orderId (fun o => { o with status := .confirmed }) with
  | (db1, none) => (db1, none, [])
  | (db1, some order) =>
    let sr := sendTelegramReceipt env db1 order
    let db3 :=
      if sr.2 then (updateOrder sr.1 orderId (fun o => { o with receiptSent := true })).1
      else sr.1
    (db3, getOrder db3 orderId, [Event.receiptSend order order.telegramUserId])

/-- orderService.ts markOrderReady — no-op unless the current status is exactly
    confirmed; otherwise advance to ready and invoke the push collaborator when the
    stored user context has notifications enabled. -/
def markOrderReady (_env : Env) (db : DB) (orderId : String) :
    DB × Option Order × List Event :=
  match getOrder db orderId with
  | none => (db, none, [])
  | some order =>
    if order.status ≠ .confirmed then (db, some order, [])
    else
      let db1 := (updateOrder db orderId (fun o => { o with status := .ready })).1
      let evs :=
        match getUserContext db1 order.telegramUserId with
        | some ctx =>
          if ctx.notificationsEnabled then
            [Event.pushSend order.telegramUserId order.orderNumber]
          else []
        | none => []
      (db1, getOrder db1 orderId, evs)

/-- Result shape of the two webhook handlers in paymentService.ts. -/
structure CallbackResult where
  success : Bool
  orderId : Option String
deriving DecidableEq, Repr

/-- paymentService.ts handleStripeWebhook — require the webhook secret, verify the
    signature, then react to the event type; an unknown Checkout Session id yields
    success false with no state change. -/
def handleStripeWebhook (env : Env) (db : DB) (eventType checkoutSessionId : String) :
    DB × CallbackResult × List Event :=
  if !env.stripeWebhookSecretSet then (db, { success := false, orderId := none }, [])
  else if !env.stripeSignatureValid then (db, { success := false, orderId := none }, [])
  else if eventType = ("checkout.session.completed") then
    match getPaymentSessionByExternalRef db checkoutSessionId with
    | none => (db, { success := false, orderId := none }, [])
    | some session =>
      let db1 := (updatePaymentSession db session.id (fun s => { s with status := .succeeded })).1
      ((confirmOrder env db1 session.orderId).1,
       { success := true,
         orderId := ((confirmOrder env db1 session.orderId).2.1).map (fun o => o.id) },
       (confirmOrder env db1 session.orderId).2.2)
  else if eventType = ("checkout.session.async_payment_failed") then
    match getPaymentSessionByExternalRef db checkoutSessionId with
    | none => (db, { success := false, orderId := none }, [])
    | some session =>
      let db1 := (updatePaymentSession db session.id (fun s => { s with status := .failed })).1
      (db1, { success := false, orderId := none }, [])
  else (db, { success := true, orderId := none }, [])

/-- paymentService.ts handleSwishCallback — an unknown reference yields success
    false with no state change; PAID confirms; DECLINED and ERROR mark the session
    failed; anything else is ignored. -/
def handleSwishCallback (env : Env) (db : DB) (reference status : String) :
    DB × CallbackResult × List Event :=
  match getPaymentSessionByExternalRef db reference with
  | none => (db, { success := false, orderId := none }, [])
  | some session =>
    if status = ("PAID") then
      let db1 := (updatePaymentSession db session.id (fun s => { s with status := .succeeded })).1
      ((confirmOrder env db1 session.orderId).1,
       { success := true,
         orderId := ((confirmOrder env db1 session.orderId).2.1).map (fun o => o.id) },
       (confirmOrder env db1 session.orderId).2.2)
    else if status = ("DECLINED") || status = ("ERROR") then
      let db1 := (updatePaymentSession db session.id (fun s => { s with status := .failed })).1
      (db1, { success := false, orderId := none }, [])
    else
      (db, { success := false, orderId := none }, [])

/-- routes/orders.ts POST /api/orders error classification: 400 when the thrown
    message starts with Invalid or mentions must, required or not configured;
    500 otherwise. -/
def classifyOrderError (msg : String) : Nat :=
  if strStarts msg ("Invalid") || strContains msg ("must") ||
     strContains msg ("required") || strContains msg ("not configured") then 400
  else 500

/-- routes/orders.ts POST /api/orders — body pre-checks (the payment-method string
    check always passes for a well-typed method), then createOrder, mapping success
    to 201 and a thrown message through classifyOrderError. Returns the HTTP status
    and the database after the request. -/
def postOrdersStatus (env : Env) (orderId sessionId : String) (db : DB)
    (req : CreateOrderRequest) : Nat × DB :=
  if req.items.isEmpty then (400, db)
  else if req.telegramUserId = ("") then (400, db)
  else if req.storeId = ("") then (400, db)
  else
    match createOrder env orderId sessionId db req with
    | (db1, .ok _) => (201, db1)
    | (db1, .error msg) => (classifyOrderError msg, db1)

/-- One externally triggered operation of the lifecycle engine. A readyOp covers
    both the operator-facing endpoint and the deferred 30-second timer firing. -/
inductive Op
  | createOp (orderId sessionId : String) (req : CreateOrderRequest)
  | confirmOp (orderId : String)
  | readyOp (orderId : String)
  | stripeHookOp (eventType checkoutSessionId : String)
  | swishHookOp (reference status : String)
deriving DecidableEq, Repr

/-- One engine step: the database after the operation and the collaborator
    invocations it emitted. -/
def engineStep (env : Env) (op : Op) (db : DB) : DB × List Event :=
  match op with
  | .createOp orderId sessionId req => ((createOrder env orderId sessionId db req).1, [])
  | .confirmOp orderId =>
    ((confirmOrder env db orderId).1, (confirmOrder env db orderId).2.2)
  | .readyOp orderId =>
    ((markOrderReady env db orderId).1, (markOrderReady env db orderId).2.2)
  | .stripeHookOp eventType ref =>
    ((handleStripeWebhook env db eventType ref).1,
     (handleStripeWebhook env db eventType ref).2.2)
  | .swishHookOp reference status =>
    ((handleSwishCallback env db reference status).1,
     (handleSwishCallback env db reference status).2.2)

/-- Run a sequence of engine operations, accumulating emitted events in order. -/
def runEngine (env : Env) : List Op → DB → DB × List Event
  | [], db => (db, [])
  | op :: rest, db =>
    ((runEngine env rest (engineStep env op db).1).1,
     (engineStep env op db).2 ++ (runEngine env rest (engineStep env op db).1).2)

/-- A fully configured environment used for concrete evaluations. -/
def envStd : Env :=
  { stripeKeySet := true, stripeCreateOk := true, stripeSessionId := ("cs_test_1"),
    stripeCheckoutUrl := ("https://checkout.stripe.com/pay/cs_test_1"),
    stripeWebhookSecretSet := true, stripeSignatureValid := true,
    swishCertSet := true, swishMerchantSet := true, swishStatusCode := 201,
    swishLocation := ("https://mss.example/paymentrequests/ABC123"),
    swishReference := ("REF123"), botToken := true, telegramSendOk := true }

/-- A database seeded with one store, used for concrete evaluations. -/
def dbStd : DB :=
  { emptyDB with
      stores := [{ id := ("store-kungens-kurva"), name := ("IKEA Kungens Kurva"),
                   city := ("Stockholm") }] }

/-- The spec scenario request: two classic hot dogs paid by card; the caller also
    smuggles in a bogus price of 999 per item, which the server must ignore. -/
def reqStd : CreateOrderRequest :=
  { items := [{ menuItemId := ("hotdog_classic"), name := ("x"), quantity := 2, price := 999 }],
    paymentMethod := .card, telegramUserId := ("u1"), storeId := ("store-kungens-kurva") }

/-- A confirmed order used for concrete lifecycle evaluations. -/
def confirmedOrderStd : Order :=
  { id := ("o1"), orderNumber := 10, lines := [], totalPrice := 0,
    paymentMethod := .card, status := .confirmed, paymentSessionId := ("s1"),
    receiptSent := false, telegramUserId := ("u1"), storeId := ("st") }

/-- A database holding one confirmed order and its owner with notifications on. -/
def dbConfirmed : DB :=
  { emptyDB with
      orders := [confirmedOrderStd],
      userContexts := [{ telegramUserId := ("u1"), storeId := none,
                         notificationsEnabled := true }] }

/-- A database holding one order that already reached ready. -/
def dbReady : DB :=
  { emptyDB with orders := [{ confirmedOrderStd with status := .ready }] }

/-- A database holding one order still pending. -/
def dbPending : DB :=
  { emptyDB with orders := [{ confirmedOrderStd with status := .pending }] }

/-- The response produced by createOrder on envStd, dbStd and reqStd. -/
def respStd : CreateOrderResponse :=
  { orderId := ("o1"), orderNumber := 10, status := .pending,
    paymentSessionId := ("s1"), amount := 10, clientSecret := none,
    checkoutUrl := some ("https://checkout.stripe.com/pay/cs_test_1"),
    swishUrl := none }

/-- The server-side catalog price of a menu item id, zero for an unknown id.
    Used only to state the pricing property in the spec's terms. -/
def catalogPrice (menuItemId : String) : Int :=
  ((serverMenuById menuItemId).map (fun m => m.price)).getD 0

/-- The specified total: the sum over the request's line items of server-side
    catalog price times requested quantity (spec section 8, first property). -/
def catalogTotal (items : List CartItem) : Int :=
  (items.map (fun it => catalogPrice it.menuItemId * it.quantity)).sum

/-- Replace every caller-supplied price in a create-order request by an
    arbitrary one, leaving all other fields alone. -/
def mapPrices (f : CartItem → Int) (req : CreateOrderRequest) : CreateOrderRequest :=
  { req with items := req.items.map (fun it => { it with price := f it }) }

/- ———————————————————————— store-level lemmas ———————————————————————— -/

theorem getOrder_some_id {db : DB} {orderId : String} {o : Order}
    (h : getOrder db orderId = some o) : o.id = orderId := by
  have := List.find?_some h
  simpa using this

theorem getOrder_saveOrder_self {o : Order} {k : String} (h : o.id = k) (db : DB) :
    getOrder (saveOrder db o) k = some o := by
  simp [getOrder, saveOrder, List.find?, h]

theorem filter_saveOrder {l : List Order} {o : Order} :
    ((o :: l.filter (fun x => x.id ≠ o.id)).filter (fun x => x.id ≠ o.id)) =
      l.filter (fun x => x.id ≠ o.id) := by
  simp [List.filter_cons, List.filter_filter]

theorem saveOrder_saveOrder {o o' : Order} (h : o'.id = o.id) (db : DB) :
    saveOrder (saveOrder db o) o' = saveOrder db o' := by
  simp only [saveOrder, h]
  congr 1
  simp [List.filter_cons, List.filter_filter]

theorem saveOrder_saveReceipt_comm (db : DB) (r : TelegramReceipt) (o : Order) :
    saveOrder (saveReceipt db r) o = saveReceipt (saveOrder db o) r := rfl

theorem getOrder_saveReceipt (db : DB) (r : TelegramReceipt) (k : String) :
    getOrder (saveReceipt db r) k = getOrder db k := rfl

theorem getReceipt_saveOrder (db : DB) (o : Order) (k : String) :
    getReceipt (saveOrder db o) k = getReceipt db k := rfl

theorem getReceipt_saveReceipt_self {r : TelegramReceipt} {k : String}
    (h : r.orderId = k) (db : DB) :
    getReceipt (saveReceipt db r) k = some r := by
  simp [getReceipt, saveReceipt, List.find?, h]

theorem saveReceipt_saveReceipt {r r' : TelegramReceipt} (h : r'.orderId = r.orderId)
    (db : DB) : saveReceipt (saveReceipt db r) r' = saveReceipt db r' := by
  simp only [saveReceipt, h]
  congr 1
  simp [List.filter_cons, List.filter_filter]

theorem getUserContext_saveOrder (db : DB) (o : Order) (k : String) :
    getUserContext (saveOrder db o) k = getUserContext db k := rfl

theorem maxOrderNumber_mem_le {l : List Order} {o : Order} (h : o ∈ l) :
    ∃ m, maxOrderNumber l = some m ∧ o.orderNumber ≤ m := by
  induction l with
  | nil => cases h
  | cons a l ih =>
    rcases List.mem_cons.1 h with rfl | hmem
    · cases hml : maxOrderNumber l with
      | none => exact ⟨o.orderNumber, by simp [maxOrderNumber, hml], le_refl _⟩
      | some m => exact ⟨max o.orderNumber m, by simp [maxOrderNumber, hml], le_max_left _ _⟩
    · obtain ⟨m, hm, hle⟩ := ih hmem
      exact ⟨max a.orderNumber m, by simp [maxOrderNumber, hm], le_trans hle (le_max_right _ _)⟩

theorem maxOrderNumber_le_of_all {l : List Order} {n : Int}
    (h : ∀ x ∈ l, x.orderNumber ≤ n) :
    ∀ m, maxOrderNumber l = some m → m ≤ n := by
  induction l with
  | nil => intro m hm; simp [maxOrderNumber] at hm
  | cons a l ih =>
    intro m hm
    have ha := h a (List.mem_cons_self a l)
    cases hml : maxOrderNumber l with
    | none =>
      simp [maxOrderNumber, hml] at hm
      omega
    | some m' =>
      have hm' := ih (fun x hx => h x (List.mem_cons_of_mem a hx)) m' hml
      simp [maxOrderNumber, hml] at hm
      omega

theorem nextOrderNumber_gt_mem {db : DB} {o : Order} (h : o ∈ db.orders) :
    o.orderNumber < nextOrderNumber db := by
  obtain ⟨m, hm, hle⟩ := maxOrderNumber_mem_le h
  simp only [nextOrderNumber, hm, Option.getD_some]
  omega

theorem maxOrderNumber_cons_of_le {l : List Order} {o : Order}
    (h : ∀ x ∈ l, x.orderNumber ≤ o.orderNumber) :
    maxOrderNumber (o :: l) = some o.orderNumber := by
  cases hml : maxOrderNumber l with
  | none => simp [maxOrderNumber, hml]
  | some m =>
    simp [maxOrderNumber, hml, max_eq_left (maxOrderNumber_le_of_all h m hml)]

theorem orders_savePaymentSession (db : DB) (s : PaymentSession) :
    (savePaymentSession db s).orders = db.orders := rfl

theorem orders_recordCategoryCoOccurrence (db : DB) (a b : String) :
    (recordCategoryCoOccurrence db a b).orders = db.orders := by
  unfold recordCategoryCoOccurrence
  split
  · rfl
  · split <;> rfl

theorem orders_recordPairs (l : List (String × String)) (db : DB) :
    (recordPairs db l).orders = db.orders := by
  induction l generalizing db with
  | nil => rfl
  | cons p rest ih =>
    cases p with
    | mk a b =>
      simp only [recordPairs, ih, orders_recordCategoryCoOccurrence]

theorem orders_createPayment {env : Env} {sid oid : String} {amount : Int}
    {method : PaymentMethod} {db db1 : DB} {res : PaymentCreationResult}
    (h : createPaymentForOrder env sid oid amount method db = (db1, Except.ok res)) :
    db1.orders = db.orders := by
  cases method <;> simp only [createPaymentForOrder] at h <;> split_ifs at h <;>
    simp_all [orders_savePaymentSession] <;> exact (h.1 ▸ rfl)

/-- C3: for an order whose current status is not exactly confirmed, invoking the
    ready transition is a no-op returning the stored order unchanged (so a pending
    order stays pending); for a confirmed order, the first invocation returns the
    order with status ready and a second invocation is a no-op returning the same
    order (and no further push event). -/
theorem markOrderReady_noop_and_idempotent (env : Env) (db : DB) (orderId : String)
    (o : Order) (h : getOrder db orderId = some o) :
    (o.status ≠ .confirmed → markOrderReady env db orderId = (db, some o, [])) ∧
    (o.status = .confirmed →
      (markOrderReady env db orderId).2.1 = some { o with status := OrderStatus.ready } ∧
      markOrderReady env (markOrderReady env db orderId).1 orderId =
        ((markOrderReady env db orderId).1,
         some { o with status := OrderStatus.ready }, [])) := by
  have hid : o.id = orderId := getOrder_some_id h
  have hm : getOrder (saveOrder db { o with status := OrderStatus.ready }) orderId =
      some { o with status := OrderStatus.ready } :=
    getOrder_saveOrder_self
      (show ({ o with status := OrderStatus.ready } : Order).id = orderId from hid) db
  constructor
  · intro hne
    simp [markOrderReady, h, hne]
  · intro hc
    constructor
    · simp [markOrderReady, h, hc, updateOrder, hm]
    · simp [markOrderReady, h, hc, updateOrder, hm]

/-- Witness for markOrderReady_noop_and_idempotent: the concrete confirmed order
    advances to ready and a second invocation is a no-op. -/
theorem markOrderReady_noop_and_idempotent_witness :
    (markOrderReady envStd dbConfirmed ("o1")).2.1 =
      some { confirmedOrderStd with status := OrderStatus.ready } ∧
    markOrderReady envStd (markOrderReady envStd dbConfirmed ("o1")).1 ("o1") =
      ((markOrderReady envStd dbConfirmed ("o1")).1,
       some { confirmedOrderStd with status := OrderStatus.ready }, []) :=
  (markOrderReady_noop_and_idempotent envStd dbConfirmed ("o1") confirmedOrderStd
    (by decide)).2 (by decide)

/-- C5: a fresh order store issues 10 as the first order number, every allocated
    number (MAX of existing numbers plus one) is strictly greater than every
    existing order number, and after a successful create the next number to be
    issued is the issued one plus one — so sequential creates issue strictly
    increasing numbers. -/
theorem orderNumbers_strictly_increasing :
    nextOrderNumber emptyDB = 10 ∧
    ∀ env orderId sessionId db req db' resp,
      createOrder env orderId sessionId db req = (db', Except.ok resp) →
      resp.orderNumber = nextOrderNumber db ∧
      (∀ o ∈ db.orders, o.orderNumber < resp.orderNumber) ∧
      nextOrderNumber db' = resp.orderNumber + 1 := by
  refine ⟨by decide, ?_⟩
  intro env orderId sessionId db req db' resp h
  unfold createOrder at h
  split_ifs at h
  · simp at h
  · simp at h
  · simp at h
  · rcases hst : getStoreById db req.storeId with _ | store
    · rw [hst] at h
      simp at h
    · rw [hst] at h
      dsimp only at h
      rcases hbl : buildLines req.items with e | lines
      · rw [hbl] at h
        simp at h
      · rw [hbl] at h
        dsimp only at h
        rcases hpay : createPaymentForOrder env sessionId orderId
            (lines.foldl (fun s l => s + l.quantity * l.priceAtOrder) 0)
            req.paymentMethod db with ⟨db1, pres⟩
        rw [hpay] at h
        rcases pres with e | payRes
        · simp at h
        · dsimp only at h
          simp only [Prod.mk.injEq, Except.ok.injEq] at h
          obtain ⟨hdb', hresp⟩ := h
          refine ⟨?_, ?_, ?_⟩
          · rw [← hresp]
          · intro o ho
            rw [← hresp]
            exact nextOrderNumber_gt_mem ho
          · rw [← hdb', ← hresp]
            have hd1 : db1.orders = db.orders := orders_createPayment hpay
            have hords :
                (recordPairs
                  (saveOrder db1
                    { id := orderId, orderNumber := nextOrderNumber db, lines := lines,
                      totalPrice := lines.foldl (fun s l => s + l.quantity * l.priceAtOrder) 0,
                      paymentMethod := req.paymentMethod, status := .pending,
                      paymentSessionId := payRes.sessionId, receiptSent := false,
                      telegramUserId := req.telegramUserId, storeId := req.storeId })
                  (allPairs (catsOf req.items))).orders =
                ({ id := orderId, orderNumber := nextOrderNumber db, lines := lines,
                   totalPrice := lines.foldl (fun s l => s + l.quantity * l.priceAtOrder) 0,
                   paymentMethod := req.paymentMethod, status := .pending,
                   paymentSessionId := payRes.sessionId, receiptSent := false,
                   telegramUserId := req.telegramUserId, storeId := req.storeId } : Order) ::
                  db1.orders.filter (fun x => x.id ≠ orderId) := by
              rw [orders_recordPairs]
              rfl
            have hub : ∀ x ∈ db1.orders.filter (fun x : Order => x.id ≠ orderId),
                x.orderNumber ≤ nextOrderNumber db := by
              intro x hx
              have hxm : x ∈ db.orders := hd1 ▸ (List.mem_filter.1 hx).1
              exact le_of_lt (nextOrderNumber_gt_mem hxm)
            have hmax : maxOrderNumber
                (({ id := orderId, orderNumber := nextOrderNumber db, lines := lines,
                    totalPrice := lines.foldl (fun s l => s + l.quantity * l.priceAtOrder) 0,
                    paymentMethod := req.paymentMethod, status := .pending,
                    paymentSessionId := payRes.sessionId, receiptSent := false,
                    telegramUserId := req.telegramUserId, storeId := req.storeId } : Order) ::
                  db1.orders.filter (fun x => x.id ≠ orderId)) =
                some (nextOrderNumber db) :=
              maxOrderNumber_cons_of_le hub
            show nextOrderNumber _ = _
            rw [nextOrderNumber, hords, hmax]
            rfl

/-- Witness for orderNumbers_strictly_increasing: the concrete create against the
    seeded store issues order number 10 and moves the counter to 11. -/
theorem orderNumbers_strictly_increasing_witness :
    respStd.orderNumber = nextOrderNumber dbStd ∧
    nextOrderNumber (createOrder envStd ("o1") ("s1") dbStd reqStd).1 =
      respStd.orderNumber + 1 :=
  ⟨(orderNumbers_strictly_increasing.2 envStd ("o1") ("s1") dbStd reqStd
      (createOrder envStd ("o1") ("s1") dbStd reqStd).1 respStd (by rfl)).1,
   (orderNumbers_strictly_increasing.2 envStd ("o1") ("s1") dbStd reqStd
      (createOrder envStd ("o1") ("s1") dbStd reqStd).1 respStd (by rfl)).2.2⟩

/-- C10: toggleFavorite reports true exactly when the pair was absent beforehand,
    flips that pair's membership, leaves every other pair untouched, and applying
    it twice restores the favorites set (involution at the level of membership). -/
theorem toggleFavorite_involution (db : DB) (u m : String) :
    ((toggleFavorite db u m).2 = true ↔ (u, m) ∉ db.favorites) ∧
    ((u, m) ∈ (toggleFavorite db u m).1.favorites ↔ (u, m) ∉ db.favorites) ∧
    (∀ p : String × String, p ≠ (u, m) →
      (p ∈ (toggleFavorite db u m).1.favorites ↔ p ∈ db.favorites)) ∧
    (∀ p : String × String,
      p ∈ (toggleFavorite (toggleFavorite db u m).1 u m).1.favorites ↔
        p ∈ db.favorites) := by
  by_cases h : (u, m) ∈ db.favorites
  · have h2 : (u, m) ∉ (db.favorites.filter (fun p => p ≠ (u, m))) := by
      simp [List.mem_filter]
    refine ⟨by simp [toggleFavorite, h], by simp [toggleFavorite, h, List.mem_filter], ?_, ?_⟩
    · intro p hp
      simp [toggleFavorite, h, List.mem_filter, hp]
    · intro p
      by_cases hp : p = (u, m)
      · subst hp
        simp [toggleFavorite, h, h2, List.mem_filter]
      · simp [toggleFavorite, h, h2, List.mem_filter, hp]
  · have h2 : (u, m) ∈ db.favorites ++ [(u, m)] := by simp
    refine ⟨by simp [toggleFavorite, h], by simp [toggleFavorite, h], ?_, ?_⟩
    · intro p hp
      simp [toggleFavorite, h, hp]
    · intro p
      by_cases hp : p = (u, m)
      · subst hp
        simp [toggleFavorite, h, h2, List.mem_filter]
      · simp [toggleFavorite, h, h2, List.mem_filter, hp]

/-- Witness for toggleFavorite_involution: toggling a fresh pair reports true and
    a double toggle restores the empty favorites set. -/
theorem toggleFavorite_involution_witness :
    ((toggleFavorite emptyDB ("u1") ("coffee")).2 = true) ∧
    (((("u1"), ("coffee")) : String × String) ∈
        (toggleFavorite (toggleFavorite emptyDB ("u1") ("coffee")).1 ("u1") ("coffee")).1.favorites ↔
      ((("u1"), ("coffee")) : String × String) ∈ emptyDB.favorites) :=
  ⟨(toggleFavorite_involution emptyDB ("u1") ("coffee")).1.mpr (by decide),
   (toggleFavorite_involution emptyDB ("u1") ("coffee")).2.2.2 (("u1"), ("coffee"))⟩

/-- C7: every failing createOrder call — which includes every validation failure
    (empty item list, missing user id, missing store id, unknown store, quantity
    below one, unknown menu item) — raises its error with the database exactly as
    it was before the call, so no order and no payment session is persisted. -/
theorem createOrder_error_no_persistence (env : Env) (orderId sessionId : String)
    (db : DB) (req : CreateOrderRequest) (msg : String)
    (h : (createOrder env orderId sessionId db req).2 = Except.error msg) :
    (createOrder env orderId sessionId db req).1 = db := by
  unfold createOrder at h ⊢
  split_ifs at h ⊢ <;> try rfl
  rcases hst : getStoreById db req.storeId with _ | store
  · rfl
  · rw [hst] at h
    dsimp only at h ⊢
    rcases hbl : buildLines req.items with e | lines
    · rfl
    · rw [hbl] at h
      dsimp only at h ⊢
      rcases hpay : createPaymentForOrder env sessionId orderId
          (lines.foldl (fun s l => s + l.quantity * l.priceAtOrder) 0)
          req.paymentMethod db with ⟨db1, pres⟩
      rcases pres with e | payRes
      · rw [hpay] at h ⊢
      · rw [hpay] at h ⊢
        dsimp only at h
        exact absurd h (by simp)

/-- Witness for createOrder_error_no_persistence: an empty cart fails validation
    and leaves the seeded database untouched. -/
theorem createOrder_error_no_persistence_witness :
    (createOrder envStd ("o1") ("s1") dbStd { reqStd with items := [] }).1 = dbStd :=
  createOrder_error_no_persistence envStd ("o1") ("s1") dbStd
    { reqStd with items := [] } ("Order must contain at least one item") (by rfl)

/-- C8: a payment callback whose external reference matches no stored payment
    session reports success false and leaves the database — in particular every
    order — unchanged: for the Swish callback with any status, and for the Stripe
    webhook with a configured secret and verified signature on both
    session-referencing event types. -/
theorem unknownRef_callback_no_mutation (env : Env) (db : DB) (ref status : String)
    (h : getPaymentSessionByExternalRef db ref = none) :
    handleSwishCallback env db ref status =
      (db, { success := false, orderId := none }, []) ∧
    (env.stripeWebhookSecretSet = true → env.stripeSignatureValid = true →
      handleStripeWebhook env db ("checkout.session.completed") ref =
        (db, { success := false, orderId := none }, []) ∧
      handleStripeWebhook env db ("checkout.session.async_payment_failed") ref =
        (db, { success := false, orderId := none }, [])) := by
  refine ⟨by simp [handleSwishCallback, h], ?_⟩
  intro h1 h2
  constructor <;> simp [handleStripeWebhook, h1, h2, h]

/-- Witness for unknownRef_callback_no_mutation: the concrete unknown reference
    against the seeded database mutates nothing. -/
theorem unknownRef_callback_no_mutation_witness :
    handleSwishCallback envStd dbStd ("nope") ("PAID") =
      (dbStd, { success := false, orderId := none }, []) ∧
    handleStripeWebhook envStd dbStd ("checkout.session.completed") ("nope") =
      (dbStd, { success := false, orderId := none }, []) :=
  ⟨(unknownRef_callback_no_mutation envStd dbStd ("nope") ("PAID") (by decide)).1,
   ((unknownRef_callback_no_mutation envStd dbStd ("nope") ("PAID") (by decide)).2
      (by decide) (by decide)).1⟩

/-- C9: when the ready transition fires, the engine invokes the push collaborator
    for the owning user exactly when the order exists with status confirmed and
    the stored user context of that user has notifications enabled at that moment
    — and never otherwise. -/
theorem pushSend_iff_enabled (env : Env) (db : DB) (orderId telegramUserId : String)
    (orderNumber : Int) :
    Event.pushSend telegramUserId orderNumber ∈ (markOrderReady env db orderId).2.2 ↔
    ∃ o, getOrder db orderId = some o ∧ o.status = .confirmed ∧
      telegramUserId = o.telegramUserId ∧ orderNumber = o.orderNumber ∧
      ∃ ctx, getUserContext db o.telegramUserId = some ctx ∧
        ctx.notificationsEnabled = true := by
  rcases hg : getOrder db orderId with _ | o
  · simp [markOrderReady, hg]
  · by_cases hc : o.status = .confirmed
    · have hctxs : getUserContext ((updateOrder db orderId
          (fun x => { x with status := OrderStatus.ready })).1) o.telegramUserId =
          getUserContext db o.telegramUserId := by
        simp [updateOrder, hg, getUserContext_saveOrder]
      rcases hctx : getUserContext db o.telegramUserId with _ | ctx
      · simp [markOrderReady, hg, hc, hctxs, hctx]
      · by_cases hen : ctx.notificationsEnabled
        · simp [markOrderReady, hg, hc, hctxs, hctx, hen]
        · simp [markOrderReady, hg, hc, hctxs, hctx, hen]
    · simp [markOrderReady, hg, hc]

/-- Witness for pushSend_iff_enabled: the concrete confirmed order with its owner
    opted in produces the push invocation. -/
theorem pushSend_iff_enabled_witness :
    Event.pushSend ("u1") 10 ∈ (markOrderReady envStd dbConfirmed ("o1")).2.2 :=
  (pushSend_iff_enabled envStd dbConfirmed ("o1") ("u1") 10).mpr
    ⟨confirmedOrderStd, by decide, by decide, by decide, by decide,
     ⟨{ telegramUserId := ("u1"), storeId := none, notificationsEnabled := true },
      by decide, by decide⟩⟩

theorem foldl_line_total (lines : List OrderLine) (a : Int) :
    lines.foldl (fun s l => s + l.quantity * l.priceAtOrder) a =
      a + (lines.map (fun l => l.quantity * l.priceAtOrder)).sum := by
  induction lines generalizing a with
  | nil => simp
  | cons l ls ih => simp [ih, add_assoc]

theorem catalogTotal_cons (it : CartItem) (rest : List CartItem) :
    catalogTotal (it :: rest) =
      catalogPrice it.menuItemId * it.quantity + catalogTotal rest := by
  simp [catalogTotal]

theorem buildLines_map_total {items : List CartItem} {lines : List OrderLine}
    (h : buildLines items = Except.ok lines) :
    (lines.map (fun l => l.quantity * l.priceAtOrder)).sum = catalogTotal items := by
  induction items generalizing lines with
  | nil =>
    simp only [buildLines, Except.ok.injEq] at h
    subst h
    simp [catalogTotal]
  | cons it rest ih =>
    simp only [buildLines] at h
    split_ifs at h
    rcases hm : serverMenuById it.menuItemId with _ | m
    · rw [hm] at h
      simp at h
    · rw [hm] at h
      rcases hb : buildLines rest with e | ls
      · rw [hb] at h
        simp at h
      · rw [hb] at h
        simp only [Except.ok.injEq] at h
        subst h
        simp only [List.map_cons, List.sum_cons, catalogTotal_cons, ih hb]
        simp [catalogPrice, hm, mul_comm]

theorem buildLines_total {items : List CartItem} {lines : List OrderLine}
    (h : buildLines items = Except.ok lines) :
    lines.foldl (fun s l => s + l.quantity * l.priceAtOrder) 0 = catalogTotal items := by
  rw [foldl_line_total, buildLines_map_total h, zero_add]

theorem getOrder_recordPairs (db : DB) (l : List (String × String)) (k : String) :
    getOrder (recordPairs db l) k = getOrder db k := by
  simp [getOrder, orders_recordPairs]

theorem isEmpty_map_eq {α β : Type} (f : α → β) (l : List α) :
    (l.map f).isEmpty = l.isEmpty := by
  cases l <;> rfl

theorem buildLines_mapPrices (f : CartItem → Int) (items : List CartItem) :
    buildLines (items.map (fun it => { it with price := f it })) = buildLines items := by
  induction items with
  | nil => rfl
  | cons it rest ih =>
    simp only [List.map_cons, buildLines, ih]

theorem catsOf_mapPrices (f : CartItem → Int) (items : List CartItem) :
    catsOf (items.map (fun it => { it with price := f it })) = catsOf items := by
  simp only [catsOf, List.filterMap_map]
  rfl

/-- C1: for every create-order call that succeeds, the returned amount — and the
    totalPrice stored on the persisted order — equal the sum over the request's
    line items of server-side catalog price times quantity, taken from the
    catalog at call time; and replacing every caller-supplied price field by an
    arbitrary value leaves the entire result of createOrder unchanged. -/
theorem createOrder_server_side_pricing :
    (∀ env orderId sessionId db req db' resp,
      createOrder env orderId sessionId db req = (db', Except.ok resp) →
      resp.amount = catalogTotal req.items ∧
      ∃ o, getOrder db' orderId = some o ∧ o.totalPrice = catalogTotal req.items) ∧
    (∀ env orderId sessionId db req f,
      createOrder env orderId sessionId db (mapPrices f req) =
        createOrder env orderId sessionId db req) := by
  constructor
  · intro env orderId sessionId db req db' resp h
    unfold createOrder at h
    split_ifs at h
    · simp at h
    · simp at h
    · simp at h
    · rcases hst : getStoreById db req.storeId with _ | store
      · rw [hst] at h
        simp at h
      · rw [hst] at h
        dsimp only at h
        rcases hbl : buildLines req.items with e | lines
        · rw [hbl] at h
          simp at h
        · rw [hbl] at h
          dsimp only at h
          rcases hpay : createPaymentForOrder env sessionId orderId
              (lines.foldl (fun s l => s + l.quantity * l.priceAtOrder) 0)
              req.paymentMethod db with ⟨db1, pres⟩
          rw [hpay] at h
          rcases pres with e | payRes
          · simp at h
          · dsimp only at h
            simp only [Prod.mk.injEq, Except.ok.injEq] at h
            obtain ⟨hdb', hresp⟩ := h
            constructor
            · rw [← hresp]
              exact buildLines_total hbl
            · apply Exists.intro
                ({ id := orderId, orderNumber := nextOrderNumber db, lines := lines,
                   totalPrice := lines.foldl (fun s l => s + l.quantity * l.priceAtOrder) 0,
                   paymentMethod := req.paymentMethod, status := .pending,
                   paymentSessionId := payRes.sessionId, receiptSent := false,
                   telegramUserId := req.telegramUserId, storeId := req.storeId } : Order)
              constructor
              · rw [← hdb', getOrder_recordPairs]
                exact getOrder_saveOrder_self rfl db1
              · exact buildLines_total hbl
  · intro env orderId sessionId db req f
    unfold createOrder
    dsimp only [mapPrices]
    rw [isEmpty_map_eq, buildLines_mapPrices, catsOf_mapPrices]

/-- Witness for createOrder_server_side_pricing: the spec scenario (two classic
    hot dogs, caller price 999 ignored) yields amount 10, the catalog total. -/
theorem createOrder_server_side_pricing_witness :
    respStd.amount = catalogTotal reqStd.items :=
  (createOrder_server_side_pricing.1 envStd ("o1") ("s1") dbStd reqStd
    (createOrder envStd ("o1") ("s1") dbStd reqStd).1 respStd (by rfl)).1

/-- C2 counterexample: the claim fails as stated — confirming the concrete order
    that has already reached status ready moves its stored status backward from
    ready to confirmed, because confirmOrder writes status confirmed
    unconditionally; the lifecycle is therefore not monotone under a duplicate
    confirm arriving after the ready transition. -/
theorem confirm_after_ready_regresses :
    (getOrder dbReady ("o1")).map Order.status = some OrderStatus.ready ∧
    (getOrder (confirmOrder envStd dbReady ("o1")).1 ("o1")).map Order.status =
      some OrderStatus.confirmed :=
  ⟨by decide, by decide⟩

/-- C2 amended: duplicate confirm calls are idempotent in effect — re-applying
    confirm to the same order leaves the stored state and the returned order
    exactly as after the first confirm — and the ready transition only ever fires
    from status confirmed (for any other status it returns the order unchanged),
    so for a single order ready is never observed before confirmed. However —
    this is where the original claim fails — confirming an order that has already
    reached ready resets its status to confirmed rather than leaving it at ready. -/
theorem confirm_idempotent_in_effect (env : Env) (db : DB) (orderId : String) :
    ((confirmOrder env (confirmOrder env db orderId).1 orderId).1 =
      (confirmOrder env db orderId).1) ∧
    ((confirmOrder env (confirmOrder env db orderId).1 orderId).2.1 =
      (confirmOrder env db orderId).2.1) ∧
    (∀ o, getOrder db orderId = some o → o.status ≠ OrderStatus.confirmed →
      markOrderReady env db orderId = (db, some o, [])) := by
  have hready : ∀ o, getOrder db orderId = some o → o.status ≠ OrderStatus.confirmed →
      markOrderReady env db orderId = (db, some o, []) := by
    intro o' ho' hne
    simp [markOrderReady, ho', hne]
  have hmain : (confirmOrder env (confirmOrder env db orderId).1 orderId).1 =
        (confirmOrder env db orderId).1 ∧
      (confirmOrder env (confirmOrder env db orderId).1 orderId).2.1 =
        (confirmOrder env db orderId).2.1 := by
    rcases hg : getOrder db orderId with _ | o
    · have h1 : confirmOrder env db orderId = (db, none, []) := by
        simp [confirmOrder, updateOrder, hg]
      rw [h1]
      simp [h1]
    · have hid : o.id = orderId := getOrder_some_id hg
      subst hid
      rcases hr : getReceipt db o.id with _ | r
      · by_cases hb : env.botToken
        · by_cases ht : env.telegramSendOk
          · simp [confirmOrder, updateOrder, sendTelegramReceipt, attemptReceipt,
              hg, hr, hb, ht, getOrder_saveReceipt, getReceipt_saveOrder,
              getOrder_saveOrder_self, getReceipt_saveReceipt_self,
              saveOrder_saveOrder, saveReceipt_saveReceipt, saveOrder_saveReceipt_comm]
          · simp [confirmOrder, updateOrder, sendTelegramReceipt, attemptReceipt,
              hg, hr, hb, ht, getOrder_saveReceipt, getReceipt_saveOrder,
              getOrder_saveOrder_self, getReceipt_saveReceipt_self,
              saveOrder_saveOrder, saveReceipt_saveReceipt, saveOrder_saveReceipt_comm]
        · simp [confirmOrder, updateOrder, sendTelegramReceipt, attemptReceipt,
            hg, hr, hb, getOrder_saveReceipt, getReceipt_saveOrder,
            getOrder_saveOrder_self, getReceipt_saveReceipt_self,
            saveOrder_saveOrder, saveReceipt_saveReceipt, saveOrder_saveReceipt_comm]
      · by_cases hs : r.sent
        · simp [confirmOrder, updateOrder, sendTelegramReceipt, attemptReceipt,
            hg, hr, hs, getOrder_saveReceipt, getReceipt_saveOrder,
            getOrder_saveOrder_self, getReceipt_saveReceipt_self,
            saveOrder_saveOrder, saveReceipt_saveReceipt, saveOrder_saveReceipt_comm]
        · by_cases hb : env.botToken
          · by_cases ht : env.telegramSendOk
            · simp [confirmOrder, updateOrder, sendTelegramReceipt, attemptReceipt,
                hg, hr, hs, hb, ht, getOrder_saveReceipt, getReceipt_saveOrder,
                getOrder_saveOrder_self, getReceipt_saveReceipt_self,
                saveOrder_saveOrder, saveReceipt_saveReceipt, saveOrder_saveReceipt_comm]
            · simp [confirmOrder, updateOrder, sendTelegramReceipt, attemptReceipt,
                hg, hr, hs, hb, ht, getOrder_saveReceipt, getReceipt_saveOrder,
                getOrder_saveOrder_self, getReceipt_saveReceipt_self,
                saveOrder_saveOrder, saveReceipt_saveReceipt, saveOrder_saveReceipt_comm]
          · simp [confirmOrder, updateOrder, sendTelegramReceipt, attemptReceipt,
              hg, hr, hs, hb, getOrder_saveReceipt, getReceipt_saveOrder,
              getOrder_saveOrder_self, getReceipt_saveReceipt_self,
              saveOrder_saveOrder, saveReceipt_saveReceipt, saveOrder_saveReceipt_comm]
  exact ⟨hmain.1, hmain.2, hready⟩

/-- Witness for confirm_idempotent_in_effect: the ready transition on the
    concrete pending order is a no-op. -/
theorem confirm_idempotent_in_effect_witness :
    markOrderReady envStd dbPending ("o1") =
      (dbPending, some { confirmedOrderStd with status := OrderStatus.pending }, []) :=
  (confirm_idempotent_in_effect envStd dbPending ("o1")).2.2
    { confirmedOrderStd with status := OrderStatus.pending } (by decide) (by decide)

theorem receiptSend_confirmOrder {env : Env} {db : DB} {orderId : String}
    {o : Order} {chat : String}
    (h : Event.receiptSend o chat ∈ (confirmOrder env db orderId).2.2) :
    o.status = .confirmed := by
  rcases hg : getOrder db orderId with _ | o'
  · simp [confirmOrder, updateOrder, hg] at h
  · have hid : o'.id = orderId := getOrder_some_id hg
    have hup : getOrder (saveOrder db { o' with status := OrderStatus.confirmed }) orderId =
        some { o' with status := OrderStatus.confirmed } :=
      getOrder_saveOrder_self
        (show ({ o' with status := OrderStatus.confirmed } : Order).id = orderId from hid) db
    simp only [confirmOrder, updateOrder, hg, hup, List.mem_singleton,
      Event.receiptSend.injEq] at h
    rw [h.1]

theorem receiptSend_not_ready {env : Env} {db : DB} {orderId : String}
    {o : Order} {chat : String} :
    Event.receiptSend o chat ∉ (markOrderReady env db orderId).2.2 := by
  rcases hg : getOrder db orderId with _ | ord
  · simp [markOrderReady, hg]
  · by_cases hc : ord.status = .confirmed
    · rcases hctx : getUserContext ((updateOrder db orderId
          (fun x => { x with status := OrderStatus.ready })).1) ord.telegramUserId
        with _ | ctx
      · simp [markOrderReady, hg, hc, hctx]
      · by_cases hen : ctx.notificationsEnabled <;>
          simp [markOrderReady, hg, hc, hctx, hen]
    · simp [markOrderReady, hg, hc]

theorem receiptSend_stripeHook {env : Env} {db : DB} {t ref : String}
    {o : Order} {chat : String}
    (h : Event.receiptSend o chat ∈ (handleStripeWebhook env db t ref).2.2) :
    o.status = .confirmed := by
  unfold handleStripeWebhook at h
  split_ifs at h
  · simp at h
  · simp at h
  · rcases hs : getPaymentSessionByExternalRef db ref with _ | session
    · rw [hs] at h
      simp at h
    · rw [hs] at h
      dsimp only at h
      exact receiptSend_confirmOrder h
  · rcases hs : getPaymentSessionByExternalRef db ref with _ | session
    · rw [hs] at h
      simp at h
    · rw [hs] at h
      simp at h
  · simp at h

theorem receiptSend_swishHook {env : Env} {db : DB} {ref status : String}
    {o : Order} {chat : String}
    (h : Event.receiptSend o chat ∈ (handleSwishCallback env db ref status).2.2) :
    o.status = .confirmed := by
  unfold handleSwishCallback at h
  rcases hs : getPaymentSessionByExternalRef db ref with _ | session
  · rw [hs] at h
    simp at h
  · rw [hs] at h
    dsimp only at h
    split_ifs at h
    · exact receiptSend_confirmOrder h
    · simp at h
    · simp at h

theorem receiptSend_engineStep {env : Env} {op : Op} {db : DB} {o : Order}
    {chat : String} (h : Event.receiptSend o chat ∈ (engineStep env op db).2) :
    o.status = .confirmed := by
  cases op with
  | createOp oid sid req => simp [engineStep] at h
  | confirmOp oid => exact receiptSend_confirmOrder (by simpa [engineStep] using h)
  | readyOp oid => exact absurd (by simpa [engineStep] using h) receiptSend_not_ready
  | stripeHookOp t ref => exact receiptSend_stripeHook (by simpa [engineStep] using h)
  | swishHookOp r s => exact receiptSend_swishHook (by simpa [engineStep] using h)

/-- C6: in every execution of the engine — any sequence of operations run from
    any starting database — every invocation of the receipt collaborator hands it
    an order whose status is confirmed: a receipt send is never attempted for an
    order that has not reached confirmed (the confirm transition writes the
    confirmed status before invoking the collaborator, and no other operation
    invokes it). -/
theorem receipt_only_after_confirmed (env : Env) (ops : List Op) (db : DB)
    (o : Order) (chat : String)
    (h : Event.receiptSend o chat ∈ (runEngine env ops db).2) :
    o.status = .confirmed := by
  induction ops generalizing db with
  | nil => simp [runEngine] at h
  | cons op rest ih =>
    simp only [runEngine, List.mem_append] at h
    rcases h with h1 | h2
    · exact receiptSend_engineStep h1
    · exact ih _ h2

/-- Witness for receipt_only_after_confirmed: the confirm step on the concrete
    database emits a receipt invocation, whose order is indeed confirmed. -/
theorem receipt_only_after_confirmed_witness :
    confirmedOrderStd.status = OrderStatus.confirmed :=
  receipt_only_after_confirmed envStd [Op.confirmOp ("o1")] dbConfirmed
    confirmedOrderStd ("u1") (by decide)

/-- C4 evaluated at its failing input: with a valid card order and the Stripe
    secret key absent, the provider-unconfigured failure is rethrown as the
    generic message and surfaces as HTTP 500 — not a 400-class error — while the
    analogous Swish misconfiguration does surface as 400. The claim that missing
    payment-provider credentials always surface as 400-class errors therefore
    fails on the card path. -/
theorem unconfiguredProvider_status_bug :
    (postOrdersStatus { envStd with stripeKeySet := false } ("o1") ("s1") dbStd
      reqStd).1 = 500 ∧
    (postOrdersStatus { envStd with swishCertSet := false } ("o1") ("s1") dbStd
      { reqStd with paymentMethod := .swish }).1 = 400 := by
  constructor <;> decide

end Bistro
